import Mathlib

/-!
Verification of the queer-survival-collective backend (src/index.js).

The repository contains two near-duplicate Express servers concatenated in
src/index.js: a hardened variant (lines 1-219) and an earlier second variant
(lines 220-404).  We shallowly embed the request handlers, the JWT helpers
and the auth middleware of both variants.  JavaScript `undefined` is
modelled as `Option.none`; JS falsiness on strings (`!x`) is `isFalsy`
(absent or empty).  SQL tables are lists of rows; `SELECT` without
`ORDER BY` returns the stored order.
-/

namespace QSC

/-- JS falsiness for an optional string field: `undefined` and `""` are falsy. -/
def isFalsy : Option String → Bool
  | none => true
  | some s => s = ""

/-- A row of the `users` table: `user_id`, `username`, (bcrypt-hashed) `password`. -/
structure User where
  user_id : Nat
  username : String
  password : String
deriving DecidableEq, Repr

/-- Model of `bcrypt.hash(p, 10)`: a salted one-way hash; modelled as an
injective tagging so that `bcryptCompare` verifies exactly the original
plaintext. -/
def bcryptHash (p : String) : String := "bcrypt$10$" ++ p

/-- Model of `bcrypt.compare(p, h)`: true exactly when `h` is the hash of `p`. -/
def bcryptCompare (p h : String) : Bool := h = bcryptHash p

/-- JWT payload as signed by `generateToken`: `{ id, username }` plus the
`exp` claim added by `expiresIn`.  `id` is optional because the second
variant signs `user.id`, a field that is absent (`undefined`) on `users`
rows. -/
structure Payload where
  id : Option Nat
  username : String
  exp : Nat
deriving DecidableEq, Repr

/-- Injective numeric code of a string (base-1114113 digits `c.toNat + 1`). -/
def strCode (s : String) : Nat :=
  s.data.foldl (fun a c => a * 1114113 + (c.toNat + 1)) 1

/-- Numeric code of a payload, used to build the HMAC model. -/
def payloadCode (p : Payload) : Nat :=
  Nat.pair (match p.id with | none => 0 | some n => n + 1)
    (Nat.pair (strCode p.username) p.exp)

/-- Model of the HMAC signature over (secret key, payload). -/
def sigOf (key : Nat) (p : Payload) : Nat := Nat.pair key (payloadCode p)

/-- A decoded JWT: payload plus signature. -/
structure Token where
  payload : Payload
  sig : Nat
deriving DecidableEq, Repr

/-- Model of `jwt.sign(payload, SECRET_KEY)`. -/
def signJwt (key : Nat) (p : Payload) : Token := ⟨p, sigOf key p⟩

/-- Model of `jwt.verify(token, SECRET_KEY)` on an already-decoded token:
succeeds iff the signature matches the key and the token is not expired
(`now < exp`); tampered, wrong-key and expired tokens all fail. -/
def verifyJwt (key now : Nat) (t : Token) : Option Payload :=
  if t.sig = sigOf key t.payload ∧ now < t.payload.exp then some t.payload else none

/-- Split a list of characters at every occurrence of `sep`
(the semantics of JS `String.prototype.split` with a one-character
separator), accumulating the current chunk in reverse. -/
def splitCharAux (sep : Char) : List Char → List Char → List String
  | [], acc => [String.mk acc.reverse]
  | c :: cs, acc =>
    if c = sep then String.mk acc.reverse :: splitCharAux sep cs []
    else splitCharAux sep cs (c :: acc)

/-- Split a string at every occurrence of the character `sep`; JS
`s.split(sep)` for a one-character separator. -/
def splitChar (sep : Char) (s : String) : List String := splitCharAux sep s.data []

/-- Join strings with a separator (inverse of `splitChar` on its chunks). -/
def joinWith (sep : String) : List String → String
  | [] => ""
  | [x] => x
  | x :: xs => x ++ sep ++ joinWith sep xs

/-- Parse a decimal digit string, rejecting any non-digit. -/
def parseNatAux : List Char → Nat → Option Nat
  | [], acc => some acc
  | c :: cs, acc =>
    if '0' ≤ c ∧ c ≤ '9' then parseNatAux cs (acc * 10 + (c.toNat - 48))
    else none

/-- Parse a non-empty decimal string into a natural number. -/
def strToNat (s : String) : Option Nat :=
  match s.data with
  | [] => none
  | l => parseNatAux l 0

/-- Wire encoding of a payload id: `none` (undefined, dropped by JSON) vs a number. -/
def encodeId : Option Nat → String
  | none => "u"
  | some n => "i" ++ toString n

/-- Parse the wire id component back. -/
def decodeId (s : String) : Option (Option Nat) :=
  if s = "u" then some none
  else match s.data with
    | 'i' :: rest => (strToNat (String.mk rest)).map some
    | _ => none

/-- Wire encoding of a token as the string carried in headers:
`sig . id . exp . username` (the username, coming last, absorbs any dots). -/
def encodeWire (t : Token) : String :=
  toString t.sig ++ "." ++ encodeId t.payload.id ++ "." ++ toString t.payload.exp
    ++ "." ++ t.payload.username

/-- Parse a header string back into a token; any malformed string yields
`none` (which `jwt.verify` reports as an error). -/
def decodeWire (s : String) : Option Token :=
  match splitChar '.' s with
  | sigS :: idS :: expS :: rest =>
    if rest.isEmpty then none
    else
      match strToNat sigS, decodeId idS, strToNat expS with
      | some g, some i, some e => some ⟨⟨i, joinWith "." rest, e⟩, g⟩
      | _, _, _ => none
  | _ => none

/-- Full string-level `jwt.verify`: decode the wire string, then check
signature and expiry.  Malformed, tampered and expired all yield `none`. -/
def verifyJwtStr (key now : Nat) (s : String) : Option Payload :=
  (decodeWire s).bind (verifyJwt key now)

/-- Token extraction of the hardened middleware:
`req.headers.authorization?.split(" ")[1]`.  Only the second
space-separated component is used, so a raw (un-prefixed) header value
yields `none`. -/
def extractBearer : Option String → Option String
  | none => none
  | some h => (splitChar ' ' h)[1]?

/-- Outcome of a protected route: HTTP status, whether the downstream
handler ran, and the identity it saw. -/
structure Resp where
  status : Nat
  handlerInvoked : Bool
  user : Option Payload
deriving DecidableEq, Repr

/-- Hardened variant `GET /protected` behind `verifyToken` (index.js 59-68,
124-126).  `cookieTok` models `req.cookies.token`, available via
`cookie-parser` but never read by `verifyToken`.  Absent or empty extracted
token: 401 without invoking the handler; failed verification: 403;
otherwise the handler answers 200 with the decoded identity. -/
def runProtected (key now : Nat) (auth cookieTok : Option String) : Resp :=
  match extractBearer auth with
  | none => ⟨401, false, none⟩
  | some tok =>
    if tok = "" then ⟨401, false, none⟩
    else
      match verifyJwtStr key now tok with
      | none => ⟨403, false, none⟩
      | some p => ⟨200, true, some p⟩

/-- Second variant `GET /protected` (index.js 384-398): the whole
`authorization` header is passed to `jwt.verify` (no `Bearer` split); a
missing or empty header is 403 (`Token is required`), a failed
verification is 403, success is 200 with the decoded identity. -/
def protectedSecond (key now : Nat) (auth : Option String) : Resp :=
  match auth with
  | none => ⟨403, false, none⟩
  | some s =>
    if s = "" then ⟨403, false, none⟩
    else
      match verifyJwtStr key now s with
      | none => ⟨403, false, none⟩
      | some p => ⟨200, true, some p⟩

/-- A row of the `tasks` table.  Body-supplied fields are optional because
a JS destructuring of a missing JSON field yields `undefined` (inserted as
SQL NULL). -/
structure Task where
  task_id : Nat
  user_id : Option Nat
  column_id : Option Nat
  task_title : Option String
  description : Option String
  priority : Option String
  due_date : Option String
deriving DecidableEq, Repr

/-- The JSON body of a `POST /api/tasks` request.  `user_id` may be present
even though the hardened handler never destructures it. -/
structure TaskBody where
  user_id : Option Nat
  column_id : Option Nat
  task_title : Option String
  description : Option String
  priority : Option String
  due_date : Option String
deriving DecidableEq, Repr

/-- A row of the `boards` table. -/
structure Board where
  board_id : Nat
  board_name : String
deriving DecidableEq, Repr

/-- A row of the `columns` table. -/
structure Column where
  column_id : Nat
  board_id : Nat
  column_name : String
  position : Nat
deriving DecidableEq, Repr

/-- The relational store plus the serial-id counters. -/
structure ServerState where
  users : List User
  boards : List Board
  columns : List Column
  tasks : List Task
  nextUserId : Nat
  nextTaskId : Nat
deriving DecidableEq, Repr

/-- Outcome of `POST /register` / `POST /login`: status, message body,
token body, resulting store, and the SQL statements issued (for the
boundary-validation property). -/
structure AuthResult where
  status : Nat
  message : Option String
  token : Option Token
  state : ServerState
  queries : List String
deriving DecidableEq, Repr

/-- Hardened variant `generateToken` (index.js 54-56):
`jwt.sign({ id: user.user_id, username: user.username }, SECRET_KEY,
{ expiresIn: '1h' })`.  `now` is the issuance time in seconds. -/
def generateToken (key now : Nat) (u : User) : Token :=
  signJwt key ⟨some u.user_id, u.username, now + 3600⟩

/-- Second variant `generateToken` (index.js 249-251): it signs
`{ id: user.id, username: user.username }`, but the rows handed to it
(from `RETURNING user_id, username` and `SELECT * FROM users`) have no
`id` column, only `user_id`; the property access yields `undefined`, so
the signed payload carries no user identifier. -/
def generateTokenSecond (key now : Nat) (u : User) : Token :=
  signJwt key ⟨none, u.username, now + 3600⟩

/-- Route `POST /register` (hardened index.js 74-92; the second variant, lines
320-347, differs only in not setting a cookie, which this model does not
represent).  Validation precedes any store access; then the password is
hashed and the row inserted.  The store enforces username uniqueness
(modelled from the spec: the schema is not in src/; a violating INSERT
raises, caught as a 500). -/
def register (key now : Nat) (username password : Option String) (s : ServerState) :
    AuthResult :=
  if isFalsy username || isFalsy password then
    ⟨400, some "Username and password required.", none, s, []⟩
  else
    let u := username.getD ""
    let p := password.getD ""
    if s.users.any (fun x => x.username = u) then
      ⟨500, some "Internal server error", none, s, ["INSERT users"]⟩
    else
      let newUser : User := ⟨s.nextUserId, u, bcryptHash p⟩
      let s' := { s with users := s.users ++ [newUser], nextUserId := s.nextUserId + 1 }
      ⟨201, none, some (generateToken key now newUser), s', ["INSERT users"]⟩

/-- Route `POST /login` (hardened index.js 95-115; the second variant, lines
350-381, differs only in not setting a cookie).  Validation precedes the
query; an unknown username and a wrong password both answer
400 `Invalid username or password`. -/
def login (key now : Nat) (username password : Option String) (s : ServerState) :
    AuthResult :=
  if isFalsy username || isFalsy password then
    ⟨400, some "Username and password required.", none, s, []⟩
  else
    let u := username.getD ""
    let p := password.getD ""
    match s.users.find? (fun x => x.username = u) with
    | none => ⟨400, some "Invalid username or password", none, s, ["SELECT users"]⟩
    | some user =>
      if bcryptCompare p user.password then
        ⟨200, none, some (generateToken key now user), s, ["SELECT users"]⟩
      else
        ⟨400, some "Invalid username or password", none, s, ["SELECT users"]⟩

/-- Outcome of `POST /api/tasks`: the created row (as echoed by
`RETURNING *`) and the resulting store. -/
structure TaskResult where
  task : Task
  state : ServerState
deriving DecidableEq, Repr

/-- Hardened `POST /api/tasks` (index.js 162-174), running behind
`verifyToken`: `user` is the decoded payload the middleware attached as
`req.user`.  The handler destructures only `column_id, task_title,
description, priority, due_date` from the body and inserts `req.user.id`
as the creator; the body's `user_id` field is never read. -/
def createTaskHardened (user : Payload) (body : TaskBody) (s : ServerState) : TaskResult :=
  let t : Task := ⟨s.nextTaskId, user.id, body.column_id, body.task_title,
    body.description, body.priority, body.due_date⟩
  ⟨t, { s with tasks := s.tasks ++ [t], nextTaskId := s.nextTaskId + 1 }⟩

/-- Second variant `POST /api/tasks` (index.js 305-317): the route is
registered without `verifyToken`, so no token is read at all, and the
creator inserted is the client-supplied `req.body.user_id`. -/
def createTaskSecond (body : TaskBody) (s : ServerState) : TaskResult :=
  let t : Task := ⟨s.nextTaskId, body.user_id, body.column_id, body.task_title,
    body.description, body.priority, body.due_date⟩
  ⟨t, { s with tasks := s.tasks ++ [t], nextTaskId := s.nextTaskId + 1 }⟩

/-- Projected row of the hardened `GET /users` (index.js 129-137):
`SELECT user_id, username FROM users` — no password column. -/
structure UserRow where
  user_id : Nat
  username : String
deriving DecidableEq, Repr

/-- Hardened `GET /users`: projects exactly `user_id` and `username`. -/
def listUsers (us : List User) : List UserRow :=
  us.map fun u => ⟨u.user_id, u.username⟩

/-- Second variant `GET /users` (index.js 260-268): `SELECT * FROM users`
with no auth middleware — every column, the hashed password included, is
returned. -/
def listUsersSecond (us : List User) : List User := us

/-- Output row of the hardened `GET /api/boards` aggregate: board columns
nested as a JSON array. -/
structure BoardRow where
  board_id : Nat
  board_name : String
  columns : List Column
deriving DecidableEq, Repr

/-- Aggregation `json_agg(...) FILTER (WHERE c.column_id IS NOT NULL)` over
the rows of the left join that belong to one board: SQL `json_agg` yields
NULL (`none`) when no row passes the filter, i.e. when the board's only
join row is the all-NULL one. -/
def jsonAggFilter (matched : List Column) : Option (List Column) :=
  if matched.isEmpty then none else some matched

/-- Comparison used to model `ORDER BY b.board_id` (ascending). -/
def boardLe (a b : Board) : Bool := a.board_id ≤ b.board_id

/-- Hardened `GET /api/boards` (index.js 177-201): left-join columns onto
boards, group by `board_id` (the primary key, so one output row per stored
board), `COALESCE(..., '[]')` the aggregate, `ORDER BY b.board_id`. -/
def listBoardsWithColumns (bs : List Board) (cs : List Column) : List BoardRow :=
  (bs.mergeSort boardLe).map fun b =>
    ⟨b.board_id, b.board_name,
      (jsonAggFilter (cs.filter (fun c => c.board_id = b.board_id))).getD []⟩

/-- Second variant `GET /api/boards` (index.js 270-278):
`SELECT * FROM boards` — no join, no aggregation, no ORDER BY; the rows
come back in stored order and carry no `columns` field. -/
def listBoardsSecond (bs : List Board) : List Board := bs

/-- The environment variables the two startups consult. -/
structure Env where
  DB_USER : Option String
  DB_PASSWORD : Option String
  SECRET_KEY : Option String
deriving DecidableEq, Repr

/-- Hardened startup check (index.js 16-19): `process.exit(1)` when
`DB_USER` or `SECRET_KEY` is falsy; returns whether the server goes on to
listen. -/
def startupHardened (e : Env) : Bool :=
  !(isFalsy e.DB_USER || isFalsy e.SECRET_KEY)

/-- Second variant startup (index.js 220-251, 400-403): no environment
check at all; the server always proceeds to listen. -/
def startupSecond (_e : Env) : Bool := true

/-! ## Theorems -/

/-- C1: the hardened `POST /api/tasks` stores the authenticated identity as
the creator and is unaffected by any `user_id` in the body; but the second
variant of the same route (index.js 305-317), with no auth middleware,
stores the client-supplied `user_id` verbatim.  Failing input: a request
authenticated as user 1 (alice) whose body claims `user_id = 999`; the
stored creator is 999, not 1. -/
theorem c1_task_creator_spoof :
    (∀ (user : Payload) (body : TaskBody) (s : ServerState) (x : Option Nat),
      (createTaskHardened user body s).task.user_id = user.id ∧
      createTaskHardened user { body with user_id := x } s = createTaskHardened user body s) ∧
    (createTaskSecond ⟨some 999, some 1, some "buy supplies", none, none, none⟩
        ⟨[⟨1, "alice", bcryptHash "pw"⟩], [], [], [], 2, 1⟩).task.user_id = some 999 ∧
    some 999 ≠ (some 1 : Option Nat) :=
  ⟨fun _ _ _ _ => ⟨rfl, rfl⟩, rfl, by decide⟩

/-- C4: the hardened `generateToken` signs exactly
`{id: user.user_id, username, exp: now + 1h}`; but the second variant's
`generateToken` reads `user.id`, a field absent from `users` rows, so the
token it signs for the stored row `{user_id: 1, username: "alice"}` carries
no identifier at all — not the row identifier 1. -/
theorem c4_token_payload_id :
    (∀ (key now : Nat) (u : User),
      (generateToken key now u).payload =
        ⟨some u.user_id, u.username, now + 3600⟩) ∧
    (generateTokenSecond 7 0 ⟨1, "alice", bcryptHash "pw"⟩).payload.id = none ∧
    (generateTokenSecond 7 0 ⟨1, "alice", bcryptHash "pw"⟩).payload.id ≠ some 1 :=
  ⟨fun _ _ _ => rfl, rfl, by decide⟩

/-- C8 counterexample: the second variant `GET /users` runs
`SELECT * FROM users`, so the response for a store holding alice's row
contains her hashed password — the claim that the password column is never
projected into any response of the list-users operation is false. -/
theorem c8_counterexample :
    (listUsersSecond [⟨1, "alice", "hashedpw"⟩]).map User.password = ["hashedpw"] := rfl

/-- C8 amended: the hardened `GET /users` projects exactly `user_id` and
`username`: its response is determined by those two columns alone (two
stores agreeing on them, passwords arbitrary, produce identical
responses), and the rows correspond one-to-one with the stored users. -/
theorem c8_users_projection (us vs : List User)
    (h : us.map (fun u => (u.user_id, u.username)) =
         vs.map (fun u => (u.user_id, u.username))) :
    listUsers us = listUsers vs ∧
    (listUsers us).map UserRow.user_id = us.map User.user_id ∧
    (listUsers us).map UserRow.username = us.map User.username := by
  refine ⟨?_, ?_, ?_⟩
  · have : listUsers us =
        (us.map (fun u => (u.user_id, u.username))).map (fun x => ⟨x.1, x.2⟩) := by
      simp [listUsers, List.map_map, Function.comp]
    rw [this, h]
    simp [listUsers, List.map_map, Function.comp]
  · simp [listUsers, List.map_map, Function.comp]
  · simp [listUsers, List.map_map, Function.comp]

/-- C8 witness: two stores differing only in alice's hashed password get
the identical list-users response from the hardened route. -/
theorem c8_users_projection_witness :
    listUsers [⟨1, "alice", "h1"⟩] = listUsers [⟨1, "alice", "h2"⟩] :=
  (c8_users_projection [⟨1, "alice", "h1"⟩] [⟨1, "alice", "h2"⟩] rfl).1

/-- C9 counterexample: the second variant performs no startup environment
check, so with every variable absent — signing secret included — it still
proceeds to listen, where the claim says the server refuses to start. -/
theorem c9_counterexample : startupSecond ⟨none, none, none⟩ = true := rfl

/-- C9 amended: only the hardened variant fails fast, and it checks
exactly `DB_USER` and `SECRET_KEY` (other store credentials such as
`DB_PASSWORD` are not consulted); the second variant starts regardless of
the environment. -/
theorem c9_startup_check (e : Env) (p : Option String) :
    (startupHardened e = false ↔
      (isFalsy e.DB_USER = true ∨ isFalsy e.SECRET_KEY = true)) ∧
    startupHardened { e with DB_PASSWORD := p } = startupHardened e ∧
    startupSecond e = true := by
  refine ⟨?_, rfl, rfl⟩
  cases hA : isFalsy e.DB_USER <;> cases hB : isFalsy e.SECRET_KEY <;>
    simp [startupHardened, hA, hB]

/-- C6 counterexample: the second variant `GET /api/boards` is a bare
`SELECT * FROM boards` with no ORDER BY clause — it returns the stored
order, here `[2, 1]`, which is not ascending by board identifier (and its
rows carry no `columns` field at all). -/
theorem c6_counterexample :
    (listBoardsSecond [⟨2, "b"⟩, ⟨1, "a"⟩]).map Board.board_id = [2, 1] ∧
    ¬ List.Sorted (· ≤ ·) [2, 1] := by
  refine ⟨rfl, ?_⟩
  decide

/-- C6 amended: the hardened aggregate read returns one output row per
stored board (board identifiers being unique), in ascending order of board
identifier, and each row's `columns` field is exactly the board's stored
columns — in particular the empty list, never SQL NULL, when the board has
none, thanks to the `COALESCE(..., '[]')` around the filtered `json_agg`. -/
theorem c6_boards_aggregate (bs : List Board) (cs : List Column)
    (hids : (bs.map Board.board_id).Nodup) :
    (listBoardsWithColumns bs cs).length = bs.length ∧
    List.Sorted (· ≤ ·) ((listBoardsWithColumns bs cs).map BoardRow.board_id) ∧
    ∀ r ∈ listBoardsWithColumns bs cs,
      r.columns = cs.filter (fun c => c.board_id = r.board_id) := by
  refine ⟨by simp [listBoardsWithColumns], ?_, ?_⟩
  · have htrans : ∀ a b c : Board, boardLe a b → boardLe b c → boardLe a c := by
      intro a b c hab hbc
      simp only [boardLe, decide_eq_true_eq] at *
      omega
    have htotal : ∀ a b : Board, boardLe a b || boardLe b a := by
      intro a b
      simpa [boardLe] using Nat.le_total a.board_id b.board_id
    have hs := List.sorted_mergeSort htrans htotal bs
    show List.Pairwise _ _
    rw [listBoardsWithColumns, List.map_map, List.pairwise_map]
    exact hs.imp (fun h => by simpa [boardLe] using h)
  · intro r hr
    rw [listBoardsWithColumns, List.mem_map] at hr
    obtain ⟨b, _, rfl⟩ := hr
    cases hm : cs.filter (fun c => c.board_id = b.board_id) with
    | nil => simp [jsonAggFilter, hm]
    | cons x xs => simp [jsonAggFilter, hm]

/-- C6 witness: two boards stored out of order and no columns; the
aggregate returns two rows, sorted, with empty column lists. -/
theorem c6_boards_aggregate_witness :
    (listBoardsWithColumns [⟨2, "b"⟩, ⟨1, "a"⟩] []).length = 2 :=
  (c6_boards_aggregate [⟨2, "b"⟩, ⟨1, "a"⟩] [] (by decide)).1

set_option maxRecDepth 40000 in
/-- C5 counterexample: a token that verifies successfully under the
signing key, supplied as the raw `Authorization` header value (one of the
three forms the claim says is accepted) and, separately, as the session
cookie, is rejected 401 Unauthenticated by the hardened middleware: only
the `Bearer <token>` header form is ever consulted. -/
theorem c5_counterexample :
    verifyJwtStr 7 10 (encodeWire (signJwt 7 ⟨some 1, "alice", 1000⟩)) =
      some ⟨some 1, "alice", 1000⟩ ∧
    (runProtected 7 10 (some (encodeWire (signJwt 7 ⟨some 1, "alice", 1000⟩)))
      none).status = 401 ∧
    (runProtected 7 10 none
      (some (encodeWire (signJwt 7 ⟨some 1, "alice", 1000⟩)))).status = 401 :=
  ⟨by decide, by decide, rfl⟩

/-- C5 amended: the cookie never influences the middleware's outcome, and
the request is rejected 401 Unauthenticated exactly when the second
space-separated component of the `Authorization` header (the `<token>` of
`Bearer <token>`) is absent or empty — raw-header and cookie tokens are
not among the accepted forms. -/
theorem c5_bearer_only (key now : Nat) (auth c₁ c₂ : Option String) :
    runProtected key now auth c₁ = runProtected key now auth c₂ ∧
    ((runProtected key now auth c₁).status = 401 ↔
      isFalsy (extractBearer auth) = true) := by
  refine ⟨rfl, ?_⟩
  rw [runProtected]
  cases h : extractBearer auth with
  | none => simp [isFalsy]
  | some tok =>
    by_cases htok : tok = ""
    · simp [htok, isFalsy]
    · cases hv : verifyJwtStr key now tok <;> simp [htok, hv, isFalsy]

/-- C2: protected-route authentication failures.  With no token the
hardened middleware answers 401 without invoking the downstream handler
(and the second variant's `/protected` answers 403); an expired token and
a token whose signature does not match the key fail verification; and any
supplied token that fails verification — malformed, tampered, or expired —
yields a 401/403, never a 200, with the handler not invoked, on both
variants. -/
theorem c2_auth_failures (key now : Nat) (auth cookieTok : Option String) :
    ((runProtected key now none cookieTok).status = 401 ∧
     (runProtected key now none cookieTok).handlerInvoked = false) ∧
    ((protectedSecond key now none).status = 403 ∧
     (protectedSecond key now none).handlerInvoked = false) ∧
    (∀ t : Token, t.payload.exp ≤ now → verifyJwt key now t = none) ∧
    (∀ t : Token, t.sig ≠ sigOf key t.payload → verifyJwt key now t = none) ∧
    (∀ s, extractBearer auth = some s → verifyJwtStr key now s = none →
      ((runProtected key now auth cookieTok).status = 401 ∨
       (runProtected key now auth cookieTok).status = 403) ∧
      (runProtected key now auth cookieTok).status ≠ 200 ∧
      (runProtected key now auth cookieTok).handlerInvoked = false) ∧
    (∀ s, auth = some s → verifyJwtStr key now s = none →
      (protectedSecond key now auth).status = 403 ∧
      (protectedSecond key now auth).status ≠ 200 ∧
      (protectedSecond key now auth).handlerInvoked = false) := by
  refine ⟨⟨rfl, rfl⟩, ⟨rfl, rfl⟩, ?_, ?_, ?_, ?_⟩
  · intro t h
    rw [verifyJwt, if_neg]
    rintro ⟨-, h₂⟩
    omega
  · intro t h
    rw [verifyJwt, if_neg]
    rintro ⟨h₁, -⟩
    exact h h₁
  · intro s hs hv
    rw [runProtected, hs]
    by_cases htok : s = ""
    · simp [htok]
    · simp [htok, hv]
  · intro s hs hv
    subst hs
    by_cases htok : s = ""
    · simp [protectedSecond, htok]
    · simp [protectedSecond, htok, hv]

set_option maxRecDepth 40000 in
/-- C2 witness: key 7, time 10; a request with no header at all, and a
request bearing (in proper `Bearer` form) a token that expired at time 5. -/
theorem c2_auth_failures_witness :
    ((runProtected 7 10 none none).status = 401 ∧
     (runProtected 7 10 none none).handlerInvoked = false) ∧
    ((runProtected 7 10
        (some ("Bearer " ++ encodeWire (signJwt 7 ⟨some 1, "alice", 5⟩))) none).status = 401 ∨
     (runProtected 7 10
        (some ("Bearer " ++ encodeWire (signJwt 7 ⟨some 1, "alice", 5⟩))) none).status = 403) :=
  ⟨(c2_auth_failures 7 10 none none).1,
   ((c2_auth_failures 7 10
      (some ("Bearer " ++ encodeWire (signJwt 7 ⟨some 1, "alice", 5⟩))) none).2.2.2.2.1
      (encodeWire (signJwt 7 ⟨some 1, "alice", 5⟩)) (by decide) (by decide)).1⟩

/-- C3: registering a fresh username and then logging in with the same
credentials succeeds with 201 then 200, and the two issued tokens decode
to the same identity — the freshly assigned row identifier and the
username. -/
theorem c3_register_then_login (key now₁ now₂ : Nat) (u p : String) (s : ServerState)
    (hu : u ≠ "") (hp : p ≠ "") (hfresh : ∀ x ∈ s.users, x.username ≠ u) :
    (register key now₁ (some u) (some p) s).status = 201 ∧
    (login key now₂ (some u) (some p)
      (register key now₁ (some u) (some p) s).state).status = 200 ∧
    ∃ t₁ t₂ : Token,
      (register key now₁ (some u) (some p) s).token = some t₁ ∧
      (login key now₂ (some u) (some p)
        (register key now₁ (some u) (some p) s).state).token = some t₂ ∧
      t₁.payload.id = t₂.payload.id ∧
      t₁.payload.username = t₂.payload.username ∧
      t₁.payload.id = some s.nextUserId ∧
      t₁.payload.username = u := by
  have hfu : isFalsy (some u) = false := by simp [isFalsy, hu]
  have hfp : isFalsy (some p) = false := by simp [isFalsy, hp]
  have hany : s.users.any (fun x => x.username = u) = false := by
    rw [List.any_eq_false]
    intro x hx
    simp [hfresh x hx]
  have hreg : register key now₁ (some u) (some p) s =
      ⟨201, none, some (generateToken key now₁ ⟨s.nextUserId, u, bcryptHash p⟩),
        { s with users := s.users ++ [⟨s.nextUserId, u, bcryptHash p⟩],
                 nextUserId := s.nextUserId + 1 }, ["INSERT users"]⟩ := by
    rw [register]
    simp [hfu, hfp, hany]
  have hfind : (s.users ++ [(⟨s.nextUserId, u, bcryptHash p⟩ : User)]).find?
      (fun x => x.username = u) = some ⟨s.nextUserId, u, bcryptHash p⟩ := by
    rw [List.find?_append]
    have h₁ : s.users.find? (fun x => x.username = u) = none := by
      rw [List.find?_eq_none]
      intro x hx
      simp [hfresh x hx]
    rw [h₁]
    simp
  have hcmp : bcryptCompare p (bcryptHash p) = true := by simp [bcryptCompare]
  rw [hreg]
  have hlog : login key now₂ (some u) (some p)
      { s with users := s.users ++ [⟨s.nextUserId, u, bcryptHash p⟩],
               nextUserId := s.nextUserId + 1 } =
      ⟨200, none, some (generateToken key now₂ ⟨s.nextUserId, u, bcryptHash p⟩),
        { s with users := s.users ++ [⟨s.nextUserId, u, bcryptHash p⟩],
                 nextUserId := s.nextUserId + 1 }, ["SELECT users"]⟩ := by
    rw [login]
    simp [hfu, hfp, hfind, hcmp]
  rw [hlog]
  exact ⟨rfl, rfl,
    generateToken key now₁ ⟨s.nextUserId, u, bcryptHash p⟩,
    generateToken key now₂ ⟨s.nextUserId, u, bcryptHash p⟩,
    rfl, rfl, rfl, rfl, rfl, rfl⟩

/-- C3 witness: on an empty store, register then login as alice with
password pw; 201 then 200. -/
theorem c3_register_then_login_witness :
    (register 7 0 (some "alice") (some "pw") ⟨[], [], [], [], 1, 1⟩).status = 201 ∧
    (login 7 100 (some "alice") (some "pw")
      (register 7 0 (some "alice") (some "pw") ⟨[], [], [], [], 1, 1⟩).state).status = 200 :=
  ⟨(c3_register_then_login 7 0 100 "alice" "pw" ⟨[], [], [], [], 1, 1⟩
      (by decide) (by decide) (by simp)).1,
   (c3_register_then_login 7 0 100 "alice" "pw" ⟨[], [], [], [], 1, 1⟩
      (by decide) (by decide) (by simp)).2.1⟩

/-- C7: a register or login request missing the username or the password
field is answered 400 at the boundary: no SQL statement is issued and the
store is unchanged. -/
theorem c7_validation_before_store (key now : Nat) (username password : Option String)
    (s : ServerState) (h : username = none ∨ password = none) :
    (register key now username password s).status = 400 ∧
    (register key now username password s).queries = [] ∧
    (register key now username password s).state = s ∧
    (login key now username password s).status = 400 ∧
    (login key now username password s).queries = [] ∧
    (login key now username password s).state = s := by
  have hf : (isFalsy username || isFalsy password) = true := by
    rcases h with h | h <;> subst h <;> simp [isFalsy]
  refine ⟨?_, ?_, ?_, ?_, ?_, ?_⟩ <;> simp [register, login, hf]

/-- C7 witness: a register and a login request with the username field
absent. -/
theorem c7_validation_before_store_witness :
    (register 7 0 none (some "pw") ⟨[], [], [], [], 1, 1⟩).status = 400 ∧
    (login 7 0 none (some "pw") ⟨[], [], [], [], 1, 1⟩).queries = [] :=
  ⟨(c7_validation_before_store 7 0 none (some "pw") ⟨[], [], [], [], 1, 1⟩
      (Or.inl rfl)).1,
   (c7_validation_before_store 7 0 none (some "pw") ⟨[], [], [], [], 1, 1⟩
      (Or.inl rfl)).2.2.2.2.1⟩

/-- C10: a login with an unknown username and a login with a known
username but wrong password produce the same observable response — status
400, message `Invalid username or password`, no token — so the response
does not reveal whether the username exists. -/
theorem c10_login_oracle_free (key now now' : Nat) (u p u' p' : String)
    (s s' : ServerState) (x : User)
    (hu : u ≠ "") (hp : p ≠ "") (hu' : u' ≠ "") (hp' : p' ≠ "")
    (habsent : s.users.find? (fun y => y.username = u) = none)
    (hfound : s'.users.find? (fun y => y.username = u') = some x)
    (hwrong : bcryptCompare p' x.password = false) :
    (login key now (some u) (some p) s).status = 400 ∧
    (login key now (some u) (some p) s).message = some "Invalid username or password" ∧
    (login key now (some u) (some p) s).token = none ∧
    (login key now' (some u') (some p') s').status = 400 ∧
    (login key now' (some u') (some p') s').message = some "Invalid username or password" ∧
    (login key now' (some u') (some p') s').token = none := by
  have hfu : isFalsy (some u) = false := by simp [isFalsy, hu]
  have hfp : isFalsy (some p) = false := by simp [isFalsy, hp]
  have hfu' : isFalsy (some u') = false := by simp [isFalsy, hu']
  have hfp' : isFalsy (some p') = false := by simp [isFalsy, hp']
  refine ⟨?_, ?_, ?_, ?_, ?_, ?_⟩ <;>
    simp [login, hfu, hfp, hfu', hfp', habsent, hfound, hwrong]

/-- C10 witness: an empty store queried for bob, and a store holding alice
queried with a wrong password for alice, answer identically. -/
theorem c10_login_oracle_free_witness :
    (login 7 0 (some "bob") (some "x") ⟨[], [], [], [], 1, 1⟩).message =
      some "Invalid username or password" ∧
    (login 7 0 (some "alice") (some "wrong")
      ⟨[⟨1, "alice", bcryptHash "pw"⟩], [], [], [], 2, 1⟩).message =
      some "Invalid username or password" :=
  ⟨(c10_login_oracle_free 7 0 0 "bob" "x" "alice" "wrong"
      ⟨[], [], [], [], 1, 1⟩ ⟨[⟨1, "alice", bcryptHash "pw"⟩], [], [], [], 2, 1⟩
      ⟨1, "alice", bcryptHash "pw"⟩ (by decide) (by decide) (by decide) (by decide)
      rfl (by decide) (by decide)).2.1,
   (c10_login_oracle_free 7 0 0 "bob" "x" "alice" "wrong"
      ⟨[], [], [], [], 1, 1⟩ ⟨[⟨1, "alice", bcryptHash "pw"⟩], [], [], [], 2, 1⟩
      ⟨1, "alice", bcryptHash "pw"⟩ (by decide) (by decide) (by decide) (by decide)
      rfl (by decide) (by decide)).2.2.2.2.1⟩

end QSC
